import Mathlib

/-!
Shallow embedding of the Users_heart_rates repository
(src/Project/main.py, src/Project/validation.py, src/Project/playground.py).

Modelling conventions:
* SQL timestamps are integer seconds; heart-rate values and SQL averages are
  exact rationals.
* Rows of the two tables are records; the store is the pair of row lists.
* The random generators consumed by seeding (faker names, random.choice,
  random.randint, random.uniform) are modelled as explicit input streams.
* Python dynamic typing, where a validator inspects it via isinstance, is
  modelled by a small sum type of runtime values.
* A function that can raise returns Except String; populate_tables returns the
  committed store next to the optional error, so that transactional rollback
  (connection closed without commit) is observable.
-/

namespace HeartRates

attribute [local semireducible] Rat.mul Rat.inv Rat.add Rat.sub

/-- A row of the users table (main.py, users_table). -/
structure User where
  id : Nat
  name : String
  gender : String
  age : Int
deriving DecidableEq, Repr

/-- A row of the heart_rates table (main.py, heart_rates_table). -/
structure Reading where
  id : Nat
  user_id : Nat
  timestamp : Int
  heart_rate : Rat
deriving DecidableEq, Repr

/-- The relational store: the users table and the heart_rates table. -/
structure DB where
  users : List User
  heart_rates : List Reading
deriving DecidableEq, Repr

/-- A dynamically typed Python value, to the extent the validators inspect one
(int, float, str, datetime). -/
inductive PyVal where
  | int : Int → PyVal
  | float : Rat → PyVal
  | str : String → PyVal
  | dt : Int → PyVal
deriving DecidableEq, Repr

/-- isinstance(x, int). -/
def isInt : PyVal → Bool
  | .int _ => true
  | _ => false

/-- The integer payload of a PyVal known to be an int (unused default 0). -/
def pyInt : PyVal → Int
  | .int n => n
  | _ => 0

/-- str.upper, on the ASCII data this program passes through it. -/
def pyUpper (s : String) : String :=
  ⟨s.data.map Char.toUpper⟩

/-- validate_populate_table_params (validation.py lines 3-17).  The final
guard is the literal comparison of the source: it raises precisely when
age_to >= age_from. -/
def validate_populate_table_params
    (num_of_users num_of_hr_records age_to age_from : PyVal) : Except String Unit :=
  if !isInt num_of_users then .error "user_id must be an integer"
  else if !isInt num_of_hr_records then .error "num_of_hr_records must be an integer"
  else if !isInt age_to then .error "min_age must be an integer"
  else if !isInt age_from then .error "min_age must be an integer"
  else if pyInt age_to ≥ pyInt age_from then .error "age_from cannot be greater than age_to"
  else .ok ()

/-- The streams of random draws consumed by populate_tables: faker names,
random.choice over M/F, the randint draws, the uniform heart-rate draws. -/
structure Gen where
  names : Nat → String
  genders : Nat → Bool
  ages : Nat → Nat
  rates : Nat → Rat

/-- Floor of a rational, written out so that it evaluates by kernel
reduction. -/
def ratFloor (q : Rat) : Int :=
  Int.fdiv q.num (q.den : Int)

/-- Python round(x, 1) (half-rounding detail immaterial to every claim). -/
def round1 (q : Rat) : Rat :=
  (ratFloor (q * 10 + 1 / 2) : Rat) / 10

/-- SQL round(x, 2) as used by the cohort query projection. -/
def round2 (q : Rat) : Rat :=
  (ratFloor (q * 100 + 1 / 2) : Rat) / 100

/-- random.randint(a, b): a uniform draw from the inclusive range [a, b];
raises on an empty range, exactly as CPython does. -/
def randint (a b : Int) (draw : Nat) : Except String Int :=
  if a ≤ b then .ok (a + ((draw % (b - a + 1).toNat : Nat) : Int))
  else .error "empty range for randrange"

/-- Largest user id present (autoincrement base for fresh rows). -/
def maxUserId (db : DB) : Nat :=
  db.users.foldr (fun u m => max u.id m) 0

/-- Largest reading id present (autoincrement base for fresh rows). -/
def maxReadingId (db : DB) : Nat :=
  db.heart_rates.foldr (fun r m => max r.id m) 0

/-- The user-generation loop of populate_tables (main.py lines 64-74):
n more users, drawing name, gender and age from the streams at index i;
ids continue the autoincrement sequence above baseId. -/
def genUsers (g : Gen) (ageFrom ageTo : Int) (baseId : Nat) :
    Nat → Nat → Except String (List User)
  | 0, _ => .ok []
  | n + 1, i =>
    match randint ageFrom ageTo (g.ages i) with
    | .error e => .error e
    | .ok a =>
      match genUsers g ageFrom ageTo baseId n (i + 1) with
      | .error e => .error e
      | .ok rest =>
        .ok ({ id := baseId + i + 1, name := g.names i,
               gender := if g.genders i then "M" else "F", age := a } :: rest)

/-- The inner reading loop of populate_tables (main.py lines 87-94): nr
readings for one user, 30 seconds apart from start. -/
def genReadingsFor (g : Gen) (nr : Nat) (start : Int) (uid rateIdx baseId : Nat) :
    List Reading :=
  (List.range nr).map (fun i =>
    { id := baseId + i + 1, user_id := uid, timestamp := start + 30 * (i : Int),
      heart_rate := round1 (g.rates (rateIdx + i)) })

/-- The outer reading loop of populate_tables (main.py lines 86-94): one
inner loop per fetched user id, consuming the rate stream sequentially. -/
def genReadings (g : Gen) (nr : Nat) (start : Int) :
    List Nat → Nat → Nat → List Reading
  | [], _, _ => []
  | uid :: rest, rateIdx, baseId =>
    genReadingsFor g nr start uid rateIdx baseId ++
      genReadings g nr start rest (rateIdx + nr) (baseId + nr)

/-- The transaction body of populate_tables (main.py lines 62-97): generate
and insert the users, re-select every id of the users table on the same
connection, generate and insert the readings for each fetched id, commit.
The result is the optional raised error next to the committed store: an error
closes the connection without commit, so the store reverts to db. -/
def populate_tables_body (db : DB) (g : Gen) (nu nr : Nat) (ageFrom ageTo now : Int) :
    Option String × DB :=
  match genUsers g ageFrom ageTo (maxUserId db) nu 0 with
  | .error e => (some e, db)
  | .ok newUsers =>
    let pendingUsers := db.users ++ newUsers
    let user_ids := pendingUsers.map (·.id)
    let start := now - 31 * 86400
    let newReadings := genReadings g nr start user_ids 0 (maxReadingId db)
    (none, ⟨pendingUsers, db.heart_rates ++ newReadings⟩)

/-- populate_tables (main.py lines 54-97): validate (with the argument order
of the source call, line 60), then run the transaction body. -/
def populate_tables (db : DB) (g : Gen)
    (num_of_users num_of_hr_records age_from age_to : PyVal) (now : Int) :
    Option String × DB :=
  match validate_populate_table_params num_of_users num_of_hr_records age_to age_from with
  | .error e => (some e, db)
  | .ok _ =>
    populate_tables_body db g (pyInt num_of_users).toNat (pyInt num_of_hr_records).toNat
      (pyInt age_from) (pyInt age_to) now

/-- database_exists (main.py lines 99-114): any users row AND any heart_rates
row, exactly as the source combines the two probes. -/
def database_exists (db : DB) : Bool :=
  !db.users.isEmpty && !db.heart_rates.isEmpty

/-- Modelled from the spec sentence for isEmpty/exists: returns whether any
User OR any HeartRateReading currently exists.  Stated only to compare the
contract with database_exists above. -/
def database_exists_spec_or (db : DB) : Bool :=
  !db.users.isEmpty || !db.heart_rates.isEmpty

/-- The inclusive window test of main.py (timestamp >= date_from AND
timestamp <= date_to, lines 142-143 and 191-192). -/
def inWindowB (df dt t : Int) : Bool :=
  decide (df ≤ t) && decide (t ≤ dt)

/-- The strict window test of playground.py (timestamp > date_from AND
timestamp < date_to, lines 94-95 and 139-140). -/
def strictWindowB (df dt t : Int) : Bool :=
  decide (df < t) && decide (t < dt)

/-- SQL avg over the listed values. -/
def avgList (l : List Rat) : Rat :=
  l.sum / (l.length : Rat)

/-- date_trunc to the hour (and the strftime hour bucket of playground.py):
the containing hour boundary of a timestamp. -/
def truncHour (t : Int) : Int :=
  t - t.emod 3600

/-- The readings of one user inside the inclusive window: the row filter shared by
the subquery of query_users and by query_for_user (main.py). -/
def windowReadings (db : DB) (uid : Nat) (df dt : Int) : List Reading :=
  db.heart_rates.filter (fun r => r.user_id == uid && inWindowB df dt r.timestamp)

/-- filtered_users of main.py query_users (lines 127-132): ids of users
strictly older than min_age whose gender equals gender.upper(). -/
def filteredUserIds (db : DB) (min_age : Int) (gender : String) : List Nat :=
  (db.users.filter (fun u => decide (min_age < u.age) && u.gender == pyUpper gender)).map (·.id)

/-- The reading rows feeding the grouped subquery of main.py query_users
(lines 140-146): inclusive window and membership of the filtered id set. -/
def matchingReadings (db : DB) (ids : List Nat) (df dt : Int) : List Reading :=
  db.heart_rates.filter (fun r => inWindowB df dt r.timestamp && ids.contains r.user_id)

/-- avg_heart_rates of main.py query_users (lines 135-151): group the
matching readings by user_id, keep groups whose exact average strictly
exceeds min_avg_heart_rate, and project the average rounded to 2 places. -/
def subqueryRows (db : DB) (min_age : Int) (gender : String) (min_avg : Rat)
    (df dt : Int) : List (Nat × Rat) :=
  let fids := filteredUserIds db min_age gender
  let rs := matchingReadings db fids df dt
  ((rs.map (·.user_id)).dedup).filterMap (fun uid =>
    let a := avgList ((rs.filter (fun r => r.user_id == uid)).map (·.heart_rate))
    if min_avg < a then some (uid, round2 a) else none)

/-- The join of main.py query_users (lines 154-160), kept at row granularity:
the users joined against the grouped subquery on id = user_id. -/
def query_users_rows (db : DB) (min_age : Int) (gender : String) (min_avg : Rat)
    (df dt : Int) : List User :=
  db.users.flatMap (fun u =>
    ((subqueryRows db min_age gender min_avg df dt).filter (fun p => p.1 == u.id)).map
      (fun _ => u))

/-- query_users of main.py (lines 117-163): gender validation (the only check
of validate_query_users_params that typed arguments can fail), then the name
projection of the joined rows. -/
def query_users (db : DB) (min_age : Int) (gender : String) (min_avg : Rat)
    (df dt : Int) : Except String (List String) :=
  if pyUpper gender ∈ ["M", "F"] then
    .ok ((query_users_rows db min_age gender min_avg df dt).map (·.name))
  else .error "gender must be M or F"

/-- hourly_avg_heart_rates of main.py query_for_user (lines 175-196): one row
per windowed reading carrying the window-function average over its
(user_id, hour) partition, then SELECT DISTINCT. -/
def hourlyRows (db : DB) (uid : Nat) (df dt : Int) : List (Nat × Int × Rat) :=
  let rs := windowReadings db uid df dt
  (rs.map (fun r =>
    (r.user_id, truncHour r.timestamp,
      avgList ((rs.filter (fun r2 =>
        r2.user_id == r.user_id && truncHour r2.timestamp == truncHour r.timestamp)).map
        (·.heart_rate))))).dedup

/-- query_for_user of main.py (lines 165-205): the avg_heart_rate column of
the distinct hourly rows, ordered descending, limited to 10. -/
def query_for_user (db : DB) (uid : Nat) (df dt : Int) : List Rat :=
  (((hourlyRows db uid df dt).map (fun p => p.2.2)).insertionSort (· ≥ ·)).take 10

/-- The readings of one user inside the strict window of playground.py. -/
def pgWindowReadings (db : DB) (uid : Nat) (df dt : Int) : List Reading :=
  db.heart_rates.filter (fun r => r.user_id == uid && strictWindowB df dt r.timestamp)

/-- avg_heart_rates of playground.py query_users (lines 88-101): every
reading in the strict window, grouped by user_id, kept when the average
strictly exceeds min_avg_heart_rate. -/
def pg_subqueryRows (db : DB) (min_avg : Rat) (df dt : Int) : List (Nat × Rat) :=
  let rs := db.heart_rates.filter (fun r => strictWindowB df dt r.timestamp)
  ((rs.map (·.user_id)).dedup).filterMap (fun uid =>
    let a := avgList ((rs.filter (fun r => r.user_id == uid)).map (·.heart_rate))
    if min_avg < a then some (uid, a) else none)

/-- query_users of playground.py (lines 82-120): join users with the grouped
subquery on id = user_id, restricted by age > min_age and the CASE-SENSITIVE
comparison gender == gender, projecting (id, name, avg). -/
def pg_query_users (db : DB) (min_age : Int) (gender : String) (min_avg : Rat)
    (df dt : Int) : List (Nat × String × Rat) :=
  (db.users.filter (fun u => decide (min_age < u.age) && u.gender == gender)).flatMap
    (fun u =>
      ((pg_subqueryRows db min_avg df dt).filter (fun p => p.1 == u.id)).map
        (fun p => (u.id, u.name, p.2)))

/-- The descending comparison used to order playground hourly rows by their
average column. -/
def rowGe (a b : Nat × Int × Rat) : Prop :=
  b.2.2 ≤ a.2.2

instance : DecidableRel rowGe :=
  fun a b => inferInstanceAs (Decidable (b.2.2 ≤ a.2.2))

instance : IsTotal (Nat × Int × Rat) rowGe :=
  ⟨fun a b => le_total b.2.2 a.2.2⟩

instance : IsTrans (Nat × Int × Rat) rowGe :=
  ⟨fun _ _ _ h1 h2 => le_trans h2 h1⟩

/-- query_for_user of playground.py (lines 122-151): strict window, group by
(user_id, hour bucket), order by average descending, limit 10. -/
def pg_query_for_user (db : DB) (uid : Nat) (df dt : Int) : List (Nat × Int × Rat) :=
  let rs := pgWindowReadings db uid df dt
  let rows := ((rs.map (fun r => truncHour r.timestamp)).dedup).map (fun h =>
    (uid, h, avgList ((rs.filter (fun r => truncHour r.timestamp == h)).map (·.heart_rate))))
  (rows.insertionSort rowGe).take 10

/-- A deterministic stream bundle for concrete runs. -/
def g0 : Gen :=
  ⟨fun _ => "user", fun _ => true, fun _ => 0, fun _ => 100⟩

/-- A store holding one user and no readings. -/
def dbOneUser : DB :=
  ⟨[⟨1, "pre", "M", 40⟩], []⟩

/-- The empty store. -/
def dbEmpty : DB :=
  ⟨[], []⟩

/-- C1: the spec says seeding with integer parameters and ageFrom < ageTo
passes validation and proceeds; the code rejects every such call.  At the
parameter values of main.py itself (ageFrom = 35, ageTo = 50) the validator
raises, and populate_tables returns the error with the store untouched,
because the source guard is inverted (it raises when age_to >= age_from). -/
theorem validate_rejects_ascending_age_bounds :
    validate_populate_table_params (.int 10) (.int 5) (.int 50) (.int 35)
      = .error "age_from cannot be greater than age_to" ∧
    populate_tables dbEmpty g0 (.int 10) (.int 5) (.int 35) (.int 50) 0
      = (some "age_from cannot be greater than age_to", dbEmpty) := by
  constructor
  · rfl
  · rfl

/-- C2 counterexample: on a store with one user and no readings the spec
predicate (any user OR any reading) is true while database_exists returns
false, because the code conjoins the two probes. -/
theorem database_exists_or_claim_false :
    database_exists_spec_or dbOneUser = true ∧ database_exists dbOneUser = false := by
  constructor
  · rfl
  · rfl

/-- C2 (amended): database_exists returns true iff a users row exists AND a
heart_rates row exists. -/
theorem database_exists_iff_both_tables_nonempty (db : DB) :
    database_exists db = true ↔ (db.users ≠ [] ∧ db.heart_rates ≠ []) := by
  simp [database_exists]

theorem genUsers_ok_length (g : Gen) (af a2 : Int) (baseId : Nat) :
    ∀ n i us, genUsers g af a2 baseId n i = .ok us → us.length = n := by
  intro n
  induction n with
  | zero =>
    intro i us h
    simp only [genUsers] at h
    cases h
    rfl
  | succ n ih =>
    intro i us h
    simp only [genUsers] at h
    cases hr : randint af a2 (g.ages i) with
    | error e => rw [hr] at h; cases h
    | ok a =>
      rw [hr] at h
      cases hg : genUsers g af a2 baseId n (i + 1) with
      | error e => rw [hg] at h; cases h
      | ok rest =>
        rw [hg] at h
        cases h
        simp [ih (i + 1) rest hg]

theorem genReadings_length (g : Gen) (nr : Nat) (start : Int) :
    ∀ uids rateIdx baseId,
      (genReadings g nr start uids rateIdx baseId).length = uids.length * nr := by
  intro uids
  induction uids with
  | nil => intro _ _; simp [genReadings]
  | cons uid rest ih =>
    intro ri bi
    simp only [genReadings, List.length_append, List.length_cons, genReadingsFor,
      List.length_map, List.length_range, ih]
    rw [Nat.succ_mul, Nat.add_comm]

theorem genReadingsFor_map_user_id (g : Gen) (nr : Nat) (start : Int)
    (uid ri bi : Nat) :
    (genReadingsFor g nr start uid ri bi).map (·.user_id) = List.replicate nr uid := by
  unfold genReadingsFor
  rw [List.map_map]
  have hc : ((fun x : Reading => x.user_id) ∘ fun i : Nat =>
      ({ id := bi + i + 1, user_id := uid, timestamp := start + 30 * (i : Int),
         heart_rate := round1 (g.rates (ri + i)) } : Reading)) = fun _ => uid := rfl
  rw [hc, List.map_const', List.length_range]

theorem genReadings_map_user_id (g : Gen) (nr : Nat) (start : Int) :
    ∀ uids rateIdx baseId,
      (genReadings g nr start uids rateIdx baseId).map (·.user_id)
        = uids.flatMap (fun u => List.replicate nr u) := by
  intro uids
  induction uids with
  | nil => intro _ _; simp [genReadings]
  | cons uid rest ih =>
    intro ri bi
    simp only [genReadings, List.map_append, ih, List.flatMap_cons,
      genReadingsFor_map_user_id]

theorem populate_body_success_shape
    (db : DB) (g : Gen) (nu nr : Nat) (af a2 now : Int)
    (h : (populate_tables_body db g nu nr af a2 now).1 = none) :
    ∃ newUsers, genUsers g af a2 (maxUserId db) nu 0 = .ok newUsers ∧
      newUsers.length = nu ∧
      (populate_tables_body db g nu nr af a2 now).2 =
        ⟨db.users ++ newUsers,
         db.heart_rates ++ genReadings g nr (now - 31 * 86400)
           ((db.users ++ newUsers).map (·.id)) 0 (maxReadingId db)⟩ := by
  cases hg : genUsers g af a2 (maxUserId db) nu 0 with
  | error e =>
    exfalso
    unfold populate_tables_body at h
    rw [hg] at h
    cases h
  | ok newUsers =>
    refine ⟨newUsers, rfl, genUsers_ok_length g af a2 (maxUserId db) nu 0 newUsers hg, ?_⟩
    unfold populate_tables_body
    rw [hg]

/-- C10: on every successful run of the seeding body, the readings written
are exactly readingsPerUser per user id present in the users table at the
moment of the id re-select — the pre-existing users included — so the write
count is (pre-existing + userCount) × readingsPerUser, not
userCount × readingsPerUser. -/
theorem populate_body_covers_all_present_users
    (db : DB) (g : Gen) (nu nr : Nat) (af a2 now : Int)
    (h : (populate_tables_body db g nu nr af a2 now).1 = none) :
    ((populate_tables_body db g nu nr af a2 now).2.heart_rates.drop
        db.heart_rates.length).length = (db.users.length + nu) * nr ∧
    ((populate_tables_body db g nu nr af a2 now).2.heart_rates.drop
        db.heart_rates.length).map (·.user_id)
      = ((populate_tables_body db g nu nr af a2 now).2.users.map (·.id)).flatMap
          (fun u => List.replicate nr u) := by
  obtain ⟨newUsers, _, hlen, hshape⟩ := populate_body_success_shape db g nu nr af a2 now h
  rw [hshape]
  simp only [List.drop_left]
  refine ⟨?_, ?_⟩
  · rw [genReadings_length]
    simp [hlen]
  · rw [genReadings_map_user_id]

/-- C10 witness: seeding a one-user store with userCount = 1 and
readingsPerUser = 2 writes (1 + 1) × 2 readings, spread over both ids. -/
theorem populate_body_covers_all_present_users_witness :
    ((populate_tables_body dbOneUser g0 1 2 30 40 0).2.heart_rates.drop
        dbOneUser.heart_rates.length).length = (dbOneUser.users.length + 1) * 2 ∧
    ((populate_tables_body dbOneUser g0 1 2 30 40 0).2.heart_rates.drop
        dbOneUser.heart_rates.length).map (·.user_id)
      = ((populate_tables_body dbOneUser g0 1 2 30 40 0).2.users.map (·.id)).flatMap
          (fun u => List.replicate 2 u) :=
  populate_body_covers_all_present_users dbOneUser g0 1 2 30 40 0 (by rfl)

/-- C7 counterexample: seeding a store that already holds one user, with
userCount = 1 and readingsPerUser = 1, succeeds and writes 2 reading rows
rather than 1 × 1, because the id re-select (main.py line 79) returns every
user of the table. -/
theorem seed_readings_count_exceeds_product :
    (populate_tables_body dbOneUser g0 1 1 30 40 0).1 = none ∧
    ((populate_tables_body dbOneUser g0 1 1 30 40 0).2.heart_rates.drop
        dbOneUser.heart_rates.length).length = 2 ∧
    (2 : Nat) ≠ 1 * 1 :=
  ⟨rfl, rfl, by decide⟩

/-- C7 (amended): when the users table is empty before the call, a
successful run of the seeding body writes exactly
userCount × readingsPerUser reading rows, and every one of them references
a user created by that call. -/
theorem seed_fresh_store_readings_count
    (db : DB) (g : Gen) (nu nr : Nat) (af a2 now : Int)
    (hu : db.users = [])
    (h : (populate_tables_body db g nu nr af a2 now).1 = none) :
    ((populate_tables_body db g nu nr af a2 now).2.heart_rates.drop
        db.heart_rates.length).length = nu * nr ∧
    ∀ r ∈ (populate_tables_body db g nu nr af a2 now).2.heart_rates.drop
        db.heart_rates.length,
      r.user_id ∈ (populate_tables_body db g nu nr af a2 now).2.users.map (·.id) := by
  obtain ⟨newUsers, _, hlen, hshape⟩ := populate_body_success_shape db g nu nr af a2 now h
  rw [hshape]
  simp only [List.drop_left]
  refine ⟨?_, ?_⟩
  · rw [genReadings_length]
    simp [hu, hlen]
  · intro r hr
    have hm : r.user_id ∈ (genReadings g nr (now - 31 * 86400)
        ((db.users ++ newUsers).map (·.id)) 0 (maxReadingId db)).map (·.user_id) :=
      List.mem_map_of_mem _ hr
    rw [genReadings_map_user_id] at hm
    obtain ⟨u, hu1, hu2⟩ := List.mem_flatMap.mp hm
    have := List.eq_of_mem_replicate hu2
    subst this
    exact hu1

/-- C7 witness: seeding the empty store with userCount = 2 and
readingsPerUser = 3 writes 6 readings, each referencing a created user. -/
theorem seed_fresh_store_readings_count_witness :
    ((populate_tables_body dbEmpty g0 2 3 30 40 0).2.heart_rates.drop
        dbEmpty.heart_rates.length).length = 2 * 3 ∧
    ∀ r ∈ (populate_tables_body dbEmpty g0 2 3 30 40 0).2.heart_rates.drop
        dbEmpty.heart_rates.length,
      r.user_id ∈ (populate_tables_body dbEmpty g0 2 3 30 40 0).2.users.map (·.id) :=
  seed_fresh_store_readings_count dbEmpty g0 2 3 30 40 0 (by rfl) (by rfl)

/-- C9: the seed call is all-or-nothing — every raised error, whether from
validation or from a failure between the two batch inserts and the single
final commit, leaves the committed store exactly as it was. -/
theorem populate_tables_all_or_nothing
    (db : DB) (g : Gen) (nu nr af a2 : PyVal) (now : Int) (e : String)
    (h : (populate_tables db g nu nr af a2 now).1 = some e) :
    (populate_tables db g nu nr af a2 now).2 = db := by
  unfold populate_tables at h ⊢
  cases hv : validate_populate_table_params nu nr a2 af with
  | error e2 => rfl
  | ok u =>
    rw [hv] at h
    unfold populate_tables_body at h ⊢
    cases hg : genUsers g (pyInt af) (pyInt a2) (maxUserId db) (pyInt nu).toNat 0 with
    | error e2 => rfl
    | ok newUsers =>
      rw [hg] at h
      simp at h

/-- C9 witness: a failing seed call (the validator rejects integer bounds
35 and 50) leaves the empty store unchanged. -/
theorem populate_tables_all_or_nothing_witness :
    (populate_tables dbEmpty g0 (.int 1) (.int 1) (.int 35) (.int 50) 0).2 = dbEmpty :=
  populate_tables_all_or_nothing dbEmpty g0 (.int 1) (.int 1) (.int 35) (.int 50) 0
    "age_from cannot be greater than age_to" (by rfl)

theorem mem_filteredUserIds {db : DB} {ma : Int} {gender : String} {uid : Nat}
    (h : uid ∈ filteredUserIds db ma gender) :
    ∃ u ∈ db.users, ma < u.age ∧ u.gender = pyUpper gender ∧ u.id = uid := by
  unfold filteredUserIds at h
  obtain ⟨u, hu, hid⟩ := List.mem_map.mp h
  obtain ⟨hmem, hcond⟩ := List.mem_filter.mp hu
  simp only [Bool.and_eq_true, decide_eq_true_eq, beq_iff_eq] at hcond
  exact ⟨u, hmem, hcond.1, hcond.2, hid⟩

theorem mem_subqueryRows {db : DB} {ma : Int} {gender : String} {mavg : Rat}
    {df dt : Int} {p : Nat × Rat}
    (h : p ∈ subqueryRows db ma gender mavg df dt) :
    p.1 ∈ filteredUserIds db ma gender ∧
    (∃ r ∈ matchingReadings db (filteredUserIds db ma gender) df dt, r.user_id = p.1) ∧
    mavg < avgList (((matchingReadings db (filteredUserIds db ma gender) df dt).filter
        (fun r => r.user_id == p.1)).map (·.heart_rate)) := by
  simp only [subqueryRows] at h
  obtain ⟨uid, huid, hif⟩ := List.mem_filterMap.mp h
  rw [List.mem_dedup] at huid
  obtain ⟨r, hr, hruid⟩ := List.mem_map.mp huid
  by_cases hlt : mavg < avgList (((matchingReadings db (filteredUserIds db ma gender)
      df dt).filter (fun r => r.user_id == uid)).map (·.heart_rate))
  · rw [if_pos hlt] at hif
    obtain rfl := Option.some.inj hif
    have hfid : uid ∈ filteredUserIds db ma gender := by
      obtain ⟨hrdb, hcond⟩ := List.mem_filter.mp hr
      have hc2 := (Bool.and_eq_true _ _).mp hcond |>.2
      rw [hruid] at hc2
      simpa [List.contains, List.elem_eq_mem] using hc2
    exact ⟨hfid, ⟨r, hr, hruid⟩, hlt⟩
  · rw [if_neg hlt] at hif
    cases hif

theorem mem_query_users_rows {db : DB} {ma : Int} {gender : String} {mavg : Rat}
    {df dt : Int} {u : User} (h : u ∈ query_users_rows db ma gender mavg df dt) :
    u ∈ db.users ∧ ∃ p ∈ subqueryRows db ma gender mavg df dt, p.1 = u.id := by
  unfold query_users_rows at h
  obtain ⟨u2, hu2, hm⟩ := List.mem_flatMap.mp h
  obtain ⟨p, hp, hpe⟩ := List.mem_map.mp hm
  obtain rfl := hpe
  obtain ⟨hps, hpc⟩ := List.mem_filter.mp hp
  have hid : p.1 = u2.id := by simpa using hpc
  exact ⟨hu2, p, hps, hid⟩

theorem matching_filter_eq_windowReadings (db : DB) (ids : List Nat) (df dt : Int)
    {uid : Nat} (hmem : uid ∈ ids) :
    (matchingReadings db ids df dt).filter (fun r => r.user_id == uid)
      = windowReadings db uid df dt := by
  unfold matchingReadings windowReadings
  rw [List.filter_filter]
  apply List.filter_congr
  intro r _
  cases hbe : (r.user_id == uid) with
  | false => simp [hbe]
  | true =>
    have heqr : r.user_id = uid := by simpa using hbe
    simp [hbe, heqr, hmem, List.contains, List.elem_eq_mem]

theorem mem_pg_subqueryRows {db : DB} {mavg : Rat} {df dt : Int} {p : Nat × Rat}
    (h : p ∈ pg_subqueryRows db mavg df dt) :
    mavg < avgList (((db.heart_rates.filter
        (fun r => strictWindowB df dt r.timestamp)).filter
        (fun r => r.user_id == p.1)).map (·.heart_rate)) := by
  simp only [pg_subqueryRows] at h
  obtain ⟨uid, huid, hif⟩ := List.mem_filterMap.mp h
  by_cases hlt : mavg < avgList (((db.heart_rates.filter
      (fun r => strictWindowB df dt r.timestamp)).filter
      (fun r => r.user_id == uid)).map (·.heart_rate))
  · rw [if_pos hlt] at hif
    obtain rfl := Option.some.inj hif
    exact hlt
  · rw [if_neg hlt] at hif
    cases hif

theorem pg_filter_eq_pgWindowReadings {db : DB} {df dt : Int} {uid : Nat} :
    (db.heart_rates.filter (fun r => strictWindowB df dt r.timestamp)).filter
        (fun r => r.user_id == uid)
      = pgWindowReadings db uid df dt := by
  unfold pgWindowReadings
  rw [List.filter_filter]

/-- C3: both cohort-query implementations are strict on the two thresholds:
with unique user ids, a user whose age equals min_age exactly, or whose
window-restricted average heart rate equals min_avg_heart_rate exactly,
contributes no result row — in main.py and in playground.py alike (each
with its own window). -/
theorem query_users_strict_on_age_and_avg
    (db : DB) (ma : Int) (gender : String) (mavg : Rat) (df dt : Int) (u : User)
    (hnd : (db.users.map (·.id)).Nodup) (hu : u ∈ db.users) :
    (u.age = ma ∨ avgList ((windowReadings db u.id df dt).map (·.heart_rate)) = mavg →
      u ∉ query_users_rows db ma gender mavg df dt) ∧
    (u.age = ma ∨ avgList ((pgWindowReadings db u.id df dt).map (·.heart_rate)) = mavg →
      ∀ a : Rat, (u.id, u.name, a) ∉ pg_query_users db ma gender mavg df dt) := by
  constructor
  · intro hcase hmem
    obtain ⟨-, p, hp, hpid⟩ := mem_query_users_rows hmem
    obtain ⟨hfid, -, hlt⟩ := mem_subqueryRows hp
    rw [hpid] at hfid hlt
    obtain ⟨u2, hu2, hage2, -, hid2⟩ := mem_filteredUserIds hfid
    have hequ : u2 = u := List.inj_on_of_nodup_map hnd hu2 hu hid2
    subst hequ
    cases hcase with
    | inl hage =>
      rw [hage] at hage2
      exact lt_irrefl ma hage2
    | inr havg =>
      rw [matching_filter_eq_windowReadings db _ df dt hfid, havg] at hlt
      exact lt_irrefl mavg hlt
  · intro hcase a hmem
    simp only [pg_query_users] at hmem
    obtain ⟨u2, hu2f, hrow⟩ := List.mem_flatMap.mp hmem
    obtain ⟨p, hpf, hpe⟩ := List.mem_map.mp hrow
    obtain ⟨hu2, hcond2⟩ := List.mem_filter.mp hu2f
    have hid2 : u2.id = u.id := by
      simpa using congrArg Prod.fst hpe
    have hequ : u2 = u := List.inj_on_of_nodup_map hnd hu2 hu hid2
    subst hequ
    simp only [Bool.and_eq_true, decide_eq_true_eq, beq_iff_eq] at hcond2
    cases hcase with
    | inl hage =>
      rw [hage] at hcond2
      exact lt_irrefl ma hcond2.1
    | inr havg =>
      obtain ⟨hps, hpc⟩ := List.mem_filter.mp hpf
      have hp1 : p.1 = u2.id := by simpa using hpc
      have hlt := mem_pg_subqueryRows hps
      rw [hp1, pg_filter_eq_pgWindowReadings, havg] at hlt
      exact lt_irrefl mavg hlt

/-- C3 witness: with min_age = 40, the 40-year-old stored user is excluded
from the cohort result. -/
theorem query_users_strict_on_age_and_avg_witness :
    (⟨1, "A", "M", 40⟩ : User) ∉
      query_users_rows ⟨[⟨1, "A", "M", 40⟩], []⟩ 40 "M" 70 0 10 :=
  (query_users_strict_on_age_and_avg ⟨[⟨1, "A", "M", 40⟩], []⟩ 40 "M" 70 0 10
      ⟨1, "A", "M", 40⟩ (by decide) (by decide)).1 (Or.inl rfl)

/-- C8: a user with no reading inside [date_from, date_to] contributes no
row to the cohort result, whatever the age, gender and threshold
parameters: no group exists for that user. -/
theorem query_users_excludes_zero_reading_users
    (db : DB) (ma : Int) (gender : String) (mavg : Rat) (df dt : Int) (u : User)
    (h : windowReadings db u.id df dt = []) :
    u ∉ query_users_rows db ma gender mavg df dt := by
  intro hmem
  obtain ⟨-, p, hp, hpid⟩ := mem_query_users_rows hmem
  obtain ⟨-, ⟨r, hr, hruid⟩, -⟩ := mem_subqueryRows hp
  obtain ⟨hrdb, hcond⟩ := List.mem_filter.mp hr
  have hw : inWindowB df dt r.timestamp = true := ((Bool.and_eq_true _ _).mp hcond).1
  have : r ∈ windowReadings db u.id df dt := by
    unfold windowReadings
    rw [List.mem_filter]
    refine ⟨hrdb, ?_⟩
    rw [hruid, hpid]
    simp [hw]
  rw [h] at this
  cases this

/-- C8 witness: a user whose only reading lies outside the window is
excluded even with trivially satisfiable age and average thresholds. -/
theorem query_users_excludes_zero_reading_users_witness :
    (⟨1, "A", "M", 50⟩ : User) ∉
      query_users_rows ⟨[⟨1, "A", "M", 50⟩], [⟨1, 1, 5000, 90⟩]⟩ 0 "M" 0 0 10 :=
  query_users_excludes_zero_reading_users ⟨[⟨1, "A", "M", 50⟩], [⟨1, 1, 5000, 90⟩]⟩
    0 "M" 0 0 10 ⟨1, "A", "M", 50⟩ (by decide)

/-- A store holding one user whose single reading sits exactly on the lower
window boundary. -/
def dbBoundary : DB :=
  ⟨[⟨1, "A", "M", 40⟩], [⟨1, 1, 1000, 100⟩]⟩

/-- C4 counterexample: a reading whose timestamp equals date_from is
returned by the main.py top-hourly query but excluded by the playground
variant of the same query, whose window comparison is strict; so the
boundary comparison is not inclusive in both top-hourly queries. -/
theorem playground_window_excludes_boundary :
    (⟨1, 1, 1000, 100⟩ : Reading) ∈ dbBoundary.heart_rates ∧
    query_for_user dbBoundary 1 1000 2000 = [100] ∧
    pg_query_for_user dbBoundary 1 1000 2000 = [] := by
  refine ⟨by decide, by decide, by decide⟩

/-- C4 (amended): in main.py both queries treat the window as inclusive on
both ends — a stored reading with timestamp equal to date_from or date_to
passes the reading filter of the cohort subquery and of the top-hourly
query — while the playground variants compare strictly and exclude it. -/
theorem main_inclusive_playground_strict_window
    (db : DB) (uid : Nat) (ids : List Nat) (df dt : Int) (r : Reading)
    (hr : r ∈ db.heart_rates) (hord : df ≤ dt)
    (hb : r.timestamp = df ∨ r.timestamp = dt) :
    (r.user_id = uid → r ∈ windowReadings db uid df dt) ∧
    (r.user_id ∈ ids → r ∈ matchingReadings db ids df dt) ∧
    strictWindowB df dt r.timestamp = false := by
  have hw : inWindowB df dt r.timestamp = true := by
    cases hb with
    | inl h => simp [inWindowB, h, hord]
    | inr h => simp [inWindowB, h, hord]
  refine ⟨?_, ?_, ?_⟩
  · intro hu
    unfold windowReadings
    rw [List.mem_filter]
    exact ⟨hr, by simp [hu, hw]⟩
  · intro hc
    unfold matchingReadings
    rw [List.mem_filter]
    exact ⟨hr, by simp [hw, List.contains, List.elem_eq_mem, hc]⟩
  · cases hb with
    | inl h => simp [strictWindowB, h]
    | inr h => simp [strictWindowB, h]

/-- C4 witness: the boundary reading of dbBoundary is accepted by the
inclusive main.py filter and rejected by the strict playground filter. -/
theorem main_inclusive_playground_strict_window_witness :
    (⟨1, 1, 1000, 100⟩ : Reading) ∈ windowReadings dbBoundary 1 1000 2000 ∧
    strictWindowB 1000 2000 (⟨1, 1, 1000, 100⟩ : Reading).timestamp = false := by
  have h := main_inclusive_playground_strict_window dbBoundary 1 [1] 1000 2000
    ⟨1, 1, 1000, 100⟩ (by decide) (by decide) (Or.inl rfl)
  exact ⟨h.1 rfl, h.2.2⟩

/-- A store with one male user whose single reading qualifies under any
threshold below 100. -/
def dbC5 : DB :=
  ⟨[⟨1, "Bob", "M", 30⟩], [⟨1, 1, 1000, 100⟩]⟩

/-- C5 counterexample: the playground cohort query compares gender
case-sensitively, so gender written lowercase matches nothing while the
uppercase spelling matches the stored rows — the two calls differ. -/
theorem playground_gender_case_sensitive :
    pg_query_users dbC5 0 "m" 0 0 2000 ≠ pg_query_users dbC5 0 "M" 0 0 2000 := by
  decide

theorem query_users_depends_on_upper (db : DB) (ma : Int) (mavg : Rat)
    (df dt : Int) {g1 g2 : String} (h : pyUpper g1 = pyUpper g2) :
    query_users db ma g1 mavg df dt = query_users db ma g2 mavg df dt := by
  unfold query_users query_users_rows subqueryRows filteredUserIds
  rw [h]

/-- C5 (amended): the main.py cohort query normalises gender with upper()
before validating and comparing, so m and M (and f and F) give identical
results; the playground variant compares the raw string and is
case-sensitive. -/
theorem query_users_gender_case_insensitive_main
    (db : DB) (ma : Int) (mavg : Rat) (df dt : Int) :
    query_users db ma "m" mavg df dt = query_users db ma "M" mavg df dt ∧
    query_users db ma "f" mavg df dt = query_users db ma "F" mavg df dt :=
  ⟨query_users_depends_on_upper db ma mavg df dt (by decide),
   query_users_depends_on_upper db ma mavg df dt (by decide)⟩

/-- C6: both top-hourly implementations return at most 10 rows and their
average column is sorted non-increasing. -/
theorem query_for_user_at_most_ten_sorted (db : DB) (uid : Nat) (df dt : Int) :
    (query_for_user db uid df dt).length ≤ 10 ∧
    List.Sorted (· ≥ ·) (query_for_user db uid df dt) ∧
    (pg_query_for_user db uid df dt).length ≤ 10 ∧
    List.Sorted (· ≥ ·) ((pg_query_for_user db uid df dt).map (fun p => p.2.2)) := by
  refine ⟨?_, ?_, ?_, ?_⟩
  · simp only [query_for_user]
    rw [List.length_take]
    exact min_le_left _ _
  · simp only [query_for_user]
    exact List.Pairwise.sublist (List.take_sublist _ _)
      (List.sorted_insertionSort _ _)
  · simp only [pg_query_for_user]
    rw [List.length_take]
    exact min_le_left _ _
  · simp only [pg_query_for_user]
    have hs := List.sorted_insertionSort rowGe
      (((pgWindowReadings db uid df dt).map (fun r => truncHour r.timestamp)).dedup.map
        (fun h => (uid, h, avgList (((pgWindowReadings db uid df dt).filter
          (fun r => truncHour r.timestamp == h)).map (·.heart_rate)))))
    have ht := List.Pairwise.sublist (List.take_sublist 10 _) hs
    exact List.pairwise_map.mpr (ht.imp (fun h => h))

end HeartRates
